import Mathlib

/-!
Shallow embedding of the wolkenbrot image-builder lifecycle
(src/wolkenbrot/util.py, common.py, aws.py, os.py) and proofs about it.

Python exceptions are modelled with `Except`; side effects against the
backend are recorded as explicit effect traces; fault injection is
modelled by boolean environments saying which backend call raises.
-/

/-- The configuration keys read by `util.check_config` and the builders. -/
inductive CfgKey
  | name
  | description
  | region
  | user
  | instance_type
  | base_image
  | uploads
  | commands
  | provider
  | tags
deriving DecidableEq

/-- Backend API operations that can raise, used to label injected faults. -/
inductive ApiOp
  | create_key_pair
  | create_security_group
  | create_instances
  | key_delete
  | instance_terminate
  | instance_reload
  | sec_grp_delete
  | os_remove
  | stop_server
  | delete_server
  | delete_security_group
  | delete_keypair
  | delete_volume
deriving DecidableEq

/-- The errors the embedded code can raise (Python exception classes). -/
inductive Err
  | keyErrorProvider
  | badConfigFile (missing : List CfgKey)
  | sysExit (code : Nat)
  | apiError (op : ApiOp)
  | indexError
  | attributeError
  | passwordRequired
  | sshValueError
deriving DecidableEq

instance : DecidableEq (Except Err Unit) := fun a b =>
  match a, b with
  | .ok (), .ok () => .isTrue rfl
  | .ok (), .error _ => .isFalse (fun h => Except.noConfusion h)
  | .error _, .ok () => .isFalse (fun h => Except.noConfusion h)
  | .error e₁, .error e₂ =>
    match decEq e₁ e₂ with
    | .isTrue h => .isTrue (by rw [h])
    | .isFalse h => .isFalse (fun hc => h (by cases hc; rfl))

/-- A build-spec dictionary: the set of keys present, plus the values the
builders read out of it. -/
structure Config where
  keys : List CfgKey
  provider : String
  name : String
  description : String
  commands : List String
  uploads : List (String × String)
  tags : Option (List (List (String × String)))

/-- util.py line 78: the required-key set of `check_config`. -/
def requiredKeys : List CfgKey :=
  [.name, .description, .region, .user, .instance_type, .base_image,
   .uploads, .commands]

/-- util.py lines 74-86, `check_config`: reads the provider entry
(KeyError when absent), drops `region` from the required set when the
provider is `openstack`, and raises `BadConfigFile` when required keys
are missing. -/
def check_config (c : Config) : Except Err Unit :=
  if CfgKey.provider ∈ c.keys then
    let rq := if c.provider = "openstack" then requiredKeys.erase .region
              else requiredKeys
    let diff := rq.filter (fun k => !(decide (k ∈ c.keys)))
    if diff.isEmpty then .ok () else .error (.badConfigFile diff)
  else .error .keyErrorProvider

/-- The required keys absent from a configuration (the `diff` that
`check_config` computes). -/
def missingKeys (c : Config) : List CfgKey :=
  (if c.provider = "openstack" then requiredKeys.erase .region
   else requiredKeys).filter (fun k => !(decide (k ∈ c.keys)))

/-- Backend side effects of an AWS build run, in the order performed. -/
inductive Effect
  | createKeyPair
  | writeKeyFile
  | createSecGroup
  | authorizeIngress
  | createInstances
  | waitUntilRunning
  | waitStatus (code : Nat)
  | sshAttempt
  | sleep (seconds : Nat)
  | copyFile (src dst : String)
  | execCmd (cmd : String) (retval : Int)
  | createImage (name : String)
  | createTags (tags : List (String × String))
  | keyDelete
  | terminate
  | secGrpDelete
  | removeKeyFile
deriving DecidableEq

/-- Returns `true` iff the result is not an exception. -/
def exOk : Except Err Unit → Bool
  | .ok _ => true
  | .error _ => false

/-- Run a sequence of Python statements: each yields effects and may
raise; the first raised exception aborts the rest (no handler). -/
def seqSteps {α : Type} : List (List α × Except Err Unit) → List α × Except Err Unit
  | [] => ([], .ok ())
  | (fx, .error e) :: _ => (fx, .error e)
  | (fx, .ok ()) :: rest =>
    let r := seqSteps rest
    (fx ++ r.1, r.2)

/-- One backend call that performs effect `fx` unless the injected fault
`fails` makes it raise `apiError op`. -/
def stepRun {α : Type} (fx : α) (fails : Bool) (op : ApiOp) : List α × Except Err Unit :=
  if fails then ([], .error (.apiError op)) else ([fx], .ok ())

/-- Fault-injection environment for `AWSBuilder.__exit__`
(aws.py lines 53-69): which sub-step raises, whether `self.instance`
was captured, and whether the renegade-instance filter matches nothing. -/
structure ExitEnv where
  hasInstance : Bool
  keyDeleteFails : Bool
  terminateFails : Bool
  renegadeEmpty : Bool
  waitFails : Bool
  secGrpDeleteFails : Bool
  removeFails : Bool
deriving DecidableEq

/-- aws.py lines 97-107, `_locate_renegade_instance`: filters instances
by the key name and indexes with `[-1]`; an empty match list raises
IndexError, otherwise the found instance is terminated. -/
def locateRenegade (e : ExitEnv) : List Effect × Except Err Unit :=
  if e.renegadeEmpty then ([], .error .indexError)
  else stepRun .terminate e.terminateFails .instance_terminate

/-- aws.py lines 53-69, `AWSBuilder.__exit__`: key.delete();
terminate the instance (or locate the renegade one); wait for status 48;
delete the security group; remove the on-disk key file.  No sub-step is
wrapped in a handler. -/
def awsExit (e : ExitEnv) : List Effect × Except Err Unit :=
  seqSteps
    [stepRun .keyDelete e.keyDeleteFails .key_delete,
     (if e.hasInstance then stepRun .terminate e.terminateFails .instance_terminate
      else locateRenegade e),
     stepRun (.waitStatus 48) e.waitFails .instance_reload,
     stepRun .secGrpDelete e.secGrpDeleteFails .sec_grp_delete,
     stepRun .removeKeyFile e.removeFails .os_remove]

/-- Backend side effects of `OpenStackBuilder.clean` (os.py). -/
inductive OsFx
  | stopServer
  | deleteServer
  | deleteSecGroup
  | deleteKeypair
  | deleteVolume
deriving DecidableEq

/-- Fault-injection environment for `OpenStackBuilder.clean`
(os.py lines 58-70). -/
structure OsCleanEnv where
  hasInstance : Bool
  shutdownFails : Bool
  destroyFails : Bool
  hasSecGroupId : Bool
  secGrpDeleteFails : Bool
  hasKey : Bool
  keyDeleteFails : Bool
  hasVolumes : Bool
  volumeDeleteFails : Bool
deriving DecidableEq

/-- Outcome of one `SSHClient(...)` connection attempt inside
`wait_for_ssh` (aws.py lines 167-180, os.py lines 159-172): success, one
of the three exception classes caught as transient, or the
`PasswordRequiredException` that is re-raised. -/
inductive ConnOutcome
  | ok
  | noValidConn
  | timeoutErr
  | authFail
  | passwordRequired
deriving DecidableEq

/-- The exception classes of the second `except` clause:
`(NoValidConnectionsError, TimeoutError, AuthenticationException)`. -/
def isTransient : ConnOutcome → Bool
  | .noValidConn => true
  | .timeoutErr => true
  | .authFail => true
  | _ => false

/-- The `for i in range(0, 15)` retry loop of `wait_for_ssh`
(aws.py lines 167-180 and, identically, os.py lines 159-172): attempt
index `i`, remaining iterations `fuel`; success returns, a
`PasswordRequiredException` is re-raised at once, a transient failure
sleeps 4 seconds and retries; an exhausted loop raises
the ValueError reporting the machine could not be reached. -/
def sshAttempts (outs : Nat → ConnOutcome) : Nat → Nat → List Effect × Except Err Unit
  | _, 0 => ([], .error .sshValueError)
  | i, fuel + 1 =>
    match outs i with
    | .ok => ([.sshAttempt], .ok ())
    | .passwordRequired => ([.sshAttempt], .error .passwordRequired)
    | _ =>
      let r := sshAttempts outs (i + 1) fuel
      (.sshAttempt :: .sleep 4 :: r.1, r.2)

/-- aws.py lines 151-180, `AWSBuilder.wait_for_ssh`: wait for the
instance to reach status 16, then run the 15-attempt connection loop. -/
def wait_for_ssh (outs : Nat → ConnOutcome) : List Effect × Except Err Unit :=
  let r := sshAttempts outs 0 15
  (Effect.waitStatus 16 :: r.1, r.2)

/-- The effect trace of `N` transient attempts, each followed by the
fixed 4-second sleep. -/
def patRepeat : Nat → List Effect
  | 0 => []
  | n + 1 => .sshAttempt :: .sleep 4 :: patRepeat n

/-- common.py lines 57-77, the command loop body of
`Builder.configure`: every command is executed
in order and its `retval` recorded; a non-zero `retval` only changes the
message printed — the loop never breaks or raises. -/
def configureGo (retOf : Nat → Int) : Nat → List String → List Effect
  | _, [] => []
  | i, c :: cs => .execCmd c (retOf i) :: configureGo retOf (i + 1) cs

/-- common.py lines 57-77, `Builder.configure`: run every command of the
spec over the one SSH session; always returns normally. -/
def configure (cmds : List String) (retOf : Nat → Int) : List Effect × Except Err Unit :=
  (configureGo retOf 0 cmds, .ok ())

/-- aws.py line 201: `[[{"Key": k, "Value": v} for k, v in t.items()][0]
for t in self.tags]` — each user tag dictionary is rendered to its first
(Key, Value) pair; an empty dictionary raises IndexError. -/
def renderUserTags : List (List (String × String)) → Except Err (List (String × String))
  | [] => .ok []
  | t :: ts =>
    match t with
    | [] => .error .indexError
    | (k, v) :: _ =>
      match renderUserTags ts with
      | .error e => .error e
      | .ok rest => .ok ((k, v) :: rest)

/-- aws.py lines 200-208: the tag list passed to `create_tags` — the
rendered user tags (empty when `self.tags` is falsy) extended with the
Description and Name tags. -/
def imageTags (c : Config) : Except Err (List (String × String)) :=
  match c.tags with
  | none => .ok [("Description", c.description), ("Name", c.name)]
  | some ts =>
    if ts.isEmpty then .ok [("Description", c.description), ("Name", c.name)]
    else
      match renderUserTags ts with
      | .error e => .error e
      | .ok user => .ok (user ++ [("Description", c.description), ("Name", c.name)])

/-- aws.py lines 196-216, `AWSBuilder.create_image`: snapshot the
instance under the spec name, then compute and apply the tag list. -/
def create_image (c : Config) : List Effect × Except Err Unit :=
  match imageTags c with
  | .error e => ([.createImage c.name], .error e)
  | .ok ts => ([.createImage c.name, .createTags ts], .ok ())

/-- aws.py lines 71-78, `AWSBuilder.make_new_key`: `create_key_pair`
then write the `.pem` file. -/
def make_new_key (fails : Bool) : List Effect × Except Err Unit :=
  if fails then ([], .error (.apiError .create_key_pair))
  else ([.createKeyPair, .writeKeyFile], .ok ())

/-- aws.py lines 80-95, `AWSBuilder.make_new_group`:
`create_security_group` then `authorize_ingress` for port 22. -/
def make_new_group (fails : Bool) : List Effect × Except Err Unit :=
  if fails then ([], .error (.apiError .create_security_group))
  else ([.createSecGroup, .authorizeIngress], .ok ())

/-- common.py lines 36-48, `Builder.__enter__`: `make_new_key()` then
`make_new_group()`; no handler, so a failure in the second call leaves
the effects of the first call in place and propagates. -/
def builderEnter (keyFails grpFails : Bool) : List Effect × Except Err Unit :=
  seqSteps [make_new_key keyFails, make_new_group grpFails]

/-- aws.py lines 109-131, `AWSBuilder.launch`: `create_instances` then
`wait_until_running`. -/
def launch (fails : Bool) : List Effect × Except Err Unit :=
  if fails then ([], .error (.apiError .create_instances))
  else ([.createInstances, .waitUntilRunning], .ok ())

/-- aws.py lines 182-187, `AWSBuilder.copy_files`: upload each
(src, dst) pair when `config.get("uploads")` is truthy. -/
def copy_files (c : Config) : List Effect × Except Err Unit :=
  if c.uploads.isEmpty then ([], .ok ())
  else (c.uploads.map (fun p => Effect.copyFile p.1 p.2), .ok ())

/-- Injected environment of one `bake` run: the configuration, the
name-collision answer, and the fault points of each phase. -/
structure BakeEnv where
  cfg : Config
  nameTaken : Bool
  keyCreateFails : Bool
  groupCreateFails : Bool
  launchFails : Bool
  sshOuts : Nat → ConnOutcome
  cmdRet : Nat → Int
  exitEnv : ExitEnv

/-- The `with` block body of aws.py lines 285-290: launch, wait for SSH,
copy files, configure, create the image — strictly sequential, the first
exception aborting the rest. -/
def bakeBody (e : BakeEnv) : List Effect × Except Err Unit :=
  seqSteps
    [launch e.launchFails,
     wait_for_ssh e.sshOuts,
     copy_files e.cfg,
     configure e.cfg.commands e.cmdRet,
     create_image e.cfg]

/-- Python `with` semantics for `with AWSBuilder(...) as builder`:
`__exit__` runs only when `__enter__` succeeded; a body exception is
re-raised after `__exit__` unless `__exit__` itself raises. -/
def withBuilder (enterR bodyR exitR : List Effect × Except Err Unit) :
    List Effect × Except Err Unit :=
  match enterR with
  | (fx, .error e) => (fx, .error e)
  | (fx, .ok ()) =>
    match bodyR, exitR with
    | (bfx, .ok ()), (efx, .ok ()) => (fx ++ bfx ++ efx, .ok ())
    | (bfx, .ok ()), (efx, .error ee) => (fx ++ bfx ++ efx, .error ee)
    | (bfx, .error be), (efx, .ok ()) => (fx ++ bfx ++ efx, .error be)
    | (bfx, .error _), (efx, .error ee) => (fx ++ bfx ++ efx, .error ee)

/-- aws.py lines 274-290, `bake`: `check_config` first, then the
image-name collision check (`sys.exit(2)`), then the builder `with`
block.  No backend resource is touched before `check_config` passes. -/
def bake (e : BakeEnv) : List Effect × Except Err Unit :=
  match check_config e.cfg with
  | .error er => ([], .error er)
  | .ok () =>
    if e.nameTaken then ([], .error (.sysExit 2))
    else withBuilder (builderEnter e.keyCreateFails e.groupCreateFails)
                     (bakeBody e) (awsExit e.exitEnv)

/-- One iteration of the monitoring loop of `SSHClient.execute`
(util.py lines 117-133): the stdout chunks and stderr chunks drained
this round, and whether `exit_status_ready()` is true at its end. -/
structure Round where
  out : List String
  err : List String
  exitReady : Bool
deriving DecidableEq

/-- What `SSHClient.execute` does to the terminal while monitoring. -/
inductive StreamEv
  | stdoutWrite (s : String)
  | stderrWrite (s : String)
  | sleepTick
deriving DecidableEq

/-- util.py lines 117-133, the `while True` monitoring loop: stream the
stdout then stderr chunks of the round, break when the exit status is ready,
otherwise sleep 0.1s and poll again; `none` models the loop never
breaking within the given script. -/
def executeLoop : List Round → Option (List StreamEv)
  | [] => none
  | r :: rs =>
    let evs := r.out.map StreamEv.stdoutWrite ++ r.err.map StreamEv.stderrWrite
    if r.exitReady then some evs
    else
      match executeLoop rs with
      | none => none
      | some rest => some (evs ++ StreamEv.sleepTick :: rest)

/-- util.py lines 110-139, `SSHClient.execute`: run the monitoring loop,
read the exit status, close the channel, and return the Python dict
literal mapping the key `retval` to the exit code (modelled as a key/value list). -/
def execute (rounds : List Round) (retcode : Int) :
    Option (List StreamEv × List (String × Int)) :=
  match executeLoop rounds with
  | none => none
  | some evs => some (evs, [("retval", retcode)])

/-- The monitoring rounds actually consumed: every round up to and
including the first whose exit status is ready. -/
def roundsUsed : List Round → List Round
  | [] => []
  | r :: rs => if r.exitReady then [r] else r :: roundsUsed rs

/-- The stdout chunks streamed, in order. -/
def stdoutOf : List StreamEv → List String
  | [] => []
  | .stdoutWrite s :: rest => s :: stdoutOf rest
  | .stderrWrite _ :: rest => stdoutOf rest
  | .sleepTick :: rest => stdoutOf rest

/-- The stderr chunks streamed, in order. -/
def stderrOf : List StreamEv → List String
  | [] => []
  | .stderrWrite s :: rest => s :: stderrOf rest
  | .stdoutWrite _ :: rest => stderrOf rest
  | .sleepTick :: rest => stderrOf rest

/-- os.py lines 58-70, `OpenStackBuilder.clean`: shutdown and destroy the
instance when captured, delete the security group, delete the keypair,
then read `self.instance.volumes` (AttributeError when `self.instance`
is None) and delete the volume.  No sub-step is wrapped in a handler. -/
def osClean (e : OsCleanEnv) : List OsFx × Except Err Unit :=
  seqSteps
    [(if e.hasInstance then
        seqSteps
          [stepRun .stopServer e.shutdownFails .stop_server,
           stepRun .deleteServer e.destroyFails .delete_server]
      else ([], .ok ())),
     (if e.hasSecGroupId then stepRun .deleteSecGroup e.secGrpDeleteFails .delete_security_group
      else ([], .ok ())),
     (if e.hasKey then stepRun .deleteKeypair e.keyDeleteFails .delete_keypair
      else ([], .ok ())),
     (if e.hasInstance then
        (if e.hasVolumes then stepRun .deleteVolume e.volumeDeleteFails .delete_volume
         else ([], .ok ()))
      else ([], .error .attributeError))]

/-- A configuration dictionary with no keys at all. -/
def cfgEmpty : Config :=
  { keys := [], provider := "", name := "", description := "", commands := [],
    uploads := [], tags := none }

/-- A valid AWS configuration: provider plus every required key. -/
def cfgFull : Config :=
  { keys := CfgKey.provider :: requiredKeys, provider := "aws", name := "img",
    description := "d", commands := ["a", "b", "c"], uploads := [], tags := none }

/-- A configuration with a provider key but no `name` key. -/
def cfgMissingName : Config :=
  { keys := [.provider, .description, .region, .user, .instance_type,
             .base_image, .uploads, .commands],
    provider := "aws", name := "", description := "", commands := [],
    uploads := [], tags := none }

/-- A configuration holding every required key but no `provider` key. -/
def cfgAllButProvider : Config :=
  { keys := requiredKeys, provider := "", name := "img", description := "d",
    commands := [], uploads := [], tags := none }

/-- A configuration whose user tag list is `[{"owner": "x"}]`. -/
def cfgOwnerTag : Config :=
  { keys := CfgKey.provider :: requiredKeys, provider := "aws", name := "img",
    description := "d", commands := [], uploads := [],
    tags := some [[("owner", "x")]] }

/-- Teardown environment where every backend call succeeds and the
instance reference was captured. -/
def cleanExit : ExitEnv :=
  { hasInstance := true, keyDeleteFails := false, terminateFails := false,
    renegadeEmpty := false, waitFails := false, secGrpDeleteFails := false,
    removeFails := false }

/-- Teardown environment where `self.key.delete()` raises. -/
def exitEnvKeyFail : ExitEnv :=
  { hasInstance := true, keyDeleteFails := true, terminateFails := false,
    renegadeEmpty := false, waitFails := false, secGrpDeleteFails := false,
    removeFails := false }

/-- Teardown environment of a run that failed before launch: no captured
instance and no instance matching the key name. -/
def exitEnvRenegade : ExitEnv :=
  { hasInstance := false, keyDeleteFails := false, terminateFails := false,
    renegadeEmpty := true, waitFails := false, secGrpDeleteFails := false,
    removeFails := false }

/-- OpenStack teardown environment where `stop_server` raises. -/
def osEnvStopFail : OsCleanEnv :=
  { hasInstance := true, shutdownFails := true, destroyFails := false,
    hasSecGroupId := true, secGrpDeleteFails := false, hasKey := true,
    keyDeleteFails := false, hasVolumes := true, volumeDeleteFails := false }

/-- Connection outcomes: the first attempt raises
`AuthenticationException`, the second succeeds. -/
def outsAuth : Nat → ConnOutcome := fun n => if n = 0 then .authFail else .ok

/-- Connection outcomes: the first attempt raises
`PasswordRequiredException`. -/
def outsPw : Nat → ConnOutcome := fun n => if n = 0 then .passwordRequired else .ok

/-- Connection outcomes: every attempt raises
`NoValidConnectionsError`. -/
def outsAllFail : Nat → ConnOutcome := fun _ => .noValidConn

/-- A fully healthy `bake` run over `cfgFull`, whose second command
exits 1. -/
def envOk : BakeEnv :=
  { cfg := cfgFull, nameTaken := false, keyCreateFails := false,
    groupCreateFails := false, launchFails := false,
    sshOuts := fun _ => .ok, cmdRet := fun i => if i = 1 then 1 else 0,
    exitEnv := cleanExit }

/-- A `bake` run where security-group creation fails right after the
keypair was created. -/
def envGrpFail : BakeEnv := { envOk with groupCreateFails := true }

/-- A `bake` run where every SSH attempt fails transiently. -/
def envSshFail : BakeEnv := { envOk with sshOuts := fun _ => .noValidConn }

/-- A `bake` run over the configuration that misses the `name` key. -/
def envMissingName : BakeEnv := { envOk with cfg := cfgMissingName }

/-- One monitoring round producing stdout and stderr output, with the
command already finished. -/
def roundsHello : List Round :=
  [{ out := ["hello\n"], err := ["oops\n"], exitReady := true }]

/-! ### Helper lemmas -/

theorem sshAttempts_ok (outs : Nat → ConnOutcome) (i fuel : Nat) (h : outs i = .ok) :
    sshAttempts outs i (fuel + 1) = ([.sshAttempt], .ok ()) := by
  simp [sshAttempts, h]

theorem sshAttempts_password (outs : Nat → ConnOutcome) (i fuel : Nat)
    (h : outs i = .passwordRequired) :
    sshAttempts outs i (fuel + 1) = ([.sshAttempt], .error .passwordRequired) := by
  simp [sshAttempts, h]

theorem sshAttempts_trans (outs : Nat → ConnOutcome) (i fuel : Nat)
    (h : isTransient (outs i) = true) :
    sshAttempts outs i (fuel + 1) =
      (Effect.sshAttempt :: Effect.sleep 4 :: (sshAttempts outs (i + 1) fuel).1,
       (sshAttempts outs (i + 1) fuel).2) := by
  cases houts : outs i <;> simp [isTransient, houts] at h ⊢ <;>
    simp [sshAttempts, houts]

theorem sshAttempts_shift (outs : Nat → ConnOutcome) (N : Nat) :
    ∀ i fuel, N ≤ fuel → (∀ j, j < N → isTransient (outs (i + j)) = true) →
    sshAttempts outs i fuel =
      (patRepeat N ++ (sshAttempts outs (i + N) (fuel - N)).1,
       (sshAttempts outs (i + N) (fuel - N)).2) := by
  induction N with
  | zero =>
    intro i fuel _ _
    simp [patRepeat]
  | succ n ih =>
    intro i fuel hle ht
    obtain ⟨f, rfl⟩ : ∃ f, fuel = f + 1 := ⟨fuel - 1, by omega⟩
    have h0 : isTransient (outs i) = true := by
      have := ht 0 (by omega)
      simpa using this
    rw [sshAttempts_trans outs i f h0]
    have htail : ∀ j, j < n → isTransient (outs (i + 1 + j)) = true := by
      intro j hj
      have hm := ht (j + 1) (by omega)
      have hx : i + (j + 1) = i + 1 + j := by omega
      rwa [hx] at hm
    rw [ih (i + 1) f (by omega) htail]
    have hidx : i + 1 + n = i + (n + 1) := by omega
    have hfuel : f - n = f + 1 - (n + 1) := by omega
    rw [hidx, hfuel]
    simp [patRepeat]

theorem sshAttempts_allTrans (outs : Nat → ConnOutcome) (i fuel : Nat)
    (ht : ∀ j, j < fuel → isTransient (outs (i + j)) = true) :
    sshAttempts outs i fuel = (patRepeat fuel, .error .sshValueError) := by
  have h := sshAttempts_shift outs fuel i fuel le_rfl ht
  simpa [sshAttempts, Nat.sub_self] using h

theorem wait_for_ssh_succeeds (outs : Nat → ConnOutcome) (N : Nat) (hN : N < 15)
    (ht : ∀ j, j < N → isTransient (outs j) = true) (hok : outs N = .ok) :
    wait_for_ssh outs =
      (Effect.waitStatus 16 :: (patRepeat N ++ [Effect.sshAttempt]), .ok ()) := by
  obtain ⟨m, hm⟩ : ∃ m, 15 - N = m + 1 := ⟨15 - N - 1, by omega⟩
  have hshift := sshAttempts_shift outs N 0 15 (by omega)
    (by intro j hj; simpa using ht j hj)
  simp only [Nat.zero_add] at hshift
  rw [hm, sshAttempts_ok outs N m hok] at hshift
  simp [wait_for_ssh, hshift]

theorem wait_for_ssh_passwordRequired (outs : Nat → ConnOutcome) (N : Nat) (hN : N < 15)
    (ht : ∀ j, j < N → isTransient (outs j) = true) (hpw : outs N = .passwordRequired) :
    wait_for_ssh outs =
      (Effect.waitStatus 16 :: (patRepeat N ++ [Effect.sshAttempt]),
       .error .passwordRequired) := by
  obtain ⟨m, hm⟩ : ∃ m, 15 - N = m + 1 := ⟨15 - N - 1, by omega⟩
  have hshift := sshAttempts_shift outs N 0 15 (by omega)
    (by intro j hj; simpa using ht j hj)
  simp only [Nat.zero_add] at hshift
  rw [hm, sshAttempts_password outs N m hpw] at hshift
  simp [wait_for_ssh, hshift]

theorem wait_for_ssh_allTrans (outs : Nat → ConnOutcome)
    (ht : ∀ j, j < 15 → isTransient (outs j) = true) :
    wait_for_ssh outs = (Effect.waitStatus 16 :: patRepeat 15, .error .sshValueError) := by
  have h := sshAttempts_allTrans outs 0 15 (by intro j hj; simpa using ht j hj)
  simp [wait_for_ssh, h]

theorem patRepeat_count (N : Nat) : (patRepeat N).count Effect.sshAttempt = N := by
  induction N with
  | zero => simp [patRepeat]
  | succ n ih => simp [patRepeat, List.count_cons, ih]

theorem configureGo_length (retOf : Nat → Int) :
    ∀ (cmds : List String) (s : Nat), (configureGo retOf s cmds).length = cmds.length := by
  intro cmds
  induction cmds with
  | nil => intro s; simp [configureGo]
  | cons hd tl ih => intro s; simp [configureGo, ih (s + 1)]

theorem configureGo_getElem (retOf : Nat → Int) :
    ∀ (cmds : List String) (s i : Nat) (c : String), cmds[i]? = some c →
      (configureGo retOf s cmds)[i]? = some (.execCmd c (retOf (s + i))) := by
  intro cmds
  induction cmds with
  | nil => intro s i c h; simp at h
  | cons hd tl ih =>
    intro s i c h
    cases i with
    | zero =>
      simp at h
      subst h
      simp [configureGo]
    | succ n =>
      simp at h
      have hrec := ih (s + 1) n c h
      have hx : s + 1 + n = s + (n + 1) := by omega
      rw [hx] at hrec
      simpa [configureGo] using hrec

theorem check_config_eq (c : Config) (hp : CfgKey.provider ∈ c.keys) :
    check_config c =
      if (missingKeys c).isEmpty then .ok ()
      else .error (.badConfigFile (missingKeys c)) := by
  simp [check_config, missingKeys, hp]

theorem awsExit_cleanExit :
    awsExit cleanExit =
      ([.keyDelete, .terminate, .waitStatus 48, .secGrpDelete, .removeKeyFile],
       .ok ()) := by
  decide

theorem stdoutOf_append (a b : List StreamEv) :
    stdoutOf (a ++ b) = stdoutOf a ++ stdoutOf b := by
  induction a with
  | nil => simp [stdoutOf]
  | cons x xs ih => cases x <;> simp [stdoutOf, ih]

theorem stderrOf_append (a b : List StreamEv) :
    stderrOf (a ++ b) = stderrOf a ++ stderrOf b := by
  induction a with
  | nil => simp [stderrOf]
  | cons x xs ih => cases x <;> simp [stderrOf, ih]

theorem stdoutOf_outWrites (l : List String) :
    stdoutOf (l.map StreamEv.stdoutWrite) = l := by
  induction l <;> simp [stdoutOf, *]

theorem stdoutOf_errWrites (l : List String) :
    stdoutOf (l.map StreamEv.stderrWrite) = [] := by
  induction l <;> simp [stdoutOf, *]

theorem stderrOf_outWrites (l : List String) :
    stderrOf (l.map StreamEv.stdoutWrite) = [] := by
  induction l <;> simp [stderrOf, *]

theorem stderrOf_errWrites (l : List String) :
    stderrOf (l.map StreamEv.stderrWrite) = l := by
  induction l <;> simp [stderrOf, *]

theorem executeLoop_streams :
    ∀ (rounds : List Round) (evs : List StreamEv), executeLoop rounds = some evs →
      stdoutOf evs = (roundsUsed rounds).flatMap (fun r => r.out) ∧
      stderrOf evs = (roundsUsed rounds).flatMap (fun r => r.err) := by
  intro rounds
  induction rounds with
  | nil => intro evs h; simp [executeLoop] at h
  | cons r rs ih =>
    intro evs h
    by_cases hr : r.exitReady
    · simp [executeLoop, hr] at h
      subst h
      simp [roundsUsed, hr, stdoutOf_append, stderrOf_append, stdoutOf_outWrites,
            stdoutOf_errWrites, stderrOf_outWrites, stderrOf_errWrites]
    · rw [executeLoop] at h
      simp only [hr, if_false] at h
      cases hrs : executeLoop rs with
      | none => rw [hrs] at h; simp at h
      | some rest =>
        rw [hrs] at h
        simp at h
        subst h
        obtain ⟨h1, h2⟩ := ih rest hrs
        simp [roundsUsed, hr, stdoutOf_append, stderrOf_append, stdoutOf_outWrites,
              stdoutOf_errWrites, stderrOf_outWrites, stderrOf_errWrites, stdoutOf,
              stderrOf, h1, h2]

/-! ### Claim theorems -/

/-- C1 counterexample: in the run where `self.key.delete()` raises during
`AWSBuilder.__exit__`, the error is not caught — it propagates out of
teardown — and none of the subsequent sub-steps (terminate instance,
delete security group, remove key file) execute, contrary to the claim
that the error of every sub-step is swallowed and the rest still run. -/
theorem C1_counterexample :
    awsExit exitEnvKeyFail = ([], .error (.apiError .key_delete)) ∧
    Effect.terminate ∉ (awsExit exitEnvKeyFail).1 ∧
    Effect.secGrpDelete ∉ (awsExit exitEnvKeyFail).1 ∧
    Effect.removeKeyFile ∉ (awsExit exitEnvKeyFail).1 ∧
    exOk (awsExit exitEnvKeyFail).2 = false := by
  decide

/-- C1 amended: teardown sub-steps have no error handler.  A failing
`key.delete()` aborts AWS teardown with nothing else executed; whenever
AWS teardown raises, the final sub-step (key-file removal) never ran;
and a failing `stop_server` aborts OpenStack `clean` the same way. -/
theorem C1_teardown_propagates :
    (∀ e : ExitEnv, e.keyDeleteFails = true →
       awsExit e = ([], .error (.apiError .key_delete))) ∧
    (∀ e : ExitEnv, exOk (awsExit e).2 = false →
       Effect.removeKeyFile ∉ (awsExit e).1) ∧
    (∀ e : OsCleanEnv, e.hasInstance = true → e.shutdownFails = true →
       osClean e = ([], .error (.apiError .stop_server))) := by
  refine ⟨?_, ?_, ?_⟩
  · intro e
    obtain ⟨a, b, c, d, f, g, k⟩ := e
    revert a b c d f g k
    decide
  · intro e
    obtain ⟨a, b, c, d, f, g, k⟩ := e
    revert a b c d f g k
    decide
  · intro e
    obtain ⟨a, b, c, d, f, g, k, l, m⟩ := e
    revert a b c d f g k l m
    decide

/-- C1 witness: the amended theorem applied to the run where
`key.delete()` raises and to the OpenStack run where `stop_server`
raises. -/
theorem C1_witness :
    awsExit exitEnvKeyFail = ([], .error (.apiError .key_delete)) ∧
    Effect.removeKeyFile ∉ (awsExit exitEnvKeyFail).1 ∧
    osClean osEnvStopFail = ([], .error (.apiError .stop_server)) :=
  ⟨C1_teardown_propagates.1 exitEnvKeyFail rfl,
   C1_teardown_propagates.2.1 exitEnvKeyFail (by decide),
   C1_teardown_propagates.2.2 osEnvStopFail rfl rfl⟩

/-- C2 counterexample: the empty configuration misses required keys
(e.g. `name`), yet `check_config` raises KeyError on the unconditional
read of the provider entry, not `BadConfigFile`. -/
theorem C2_counterexample :
    check_config cfgEmpty = .error .keyErrorProvider ∧
    missingKeys cfgEmpty ≠ [] := by
  decide

/-- C2 amended: for every configuration that does contain a `provider`
key and misses at least one required key, `check_config` raises
`BadConfigFile`, and `bake` raises that error with no backend effect
performed. -/
theorem C2_invalid_config_rejected (c : Config) (hp : CfgKey.provider ∈ c.keys)
    (hm : missingKeys c ≠ []) :
    check_config c = .error (.badConfigFile (missingKeys c)) ∧
    ∀ e : BakeEnv, e.cfg = c → bake e = ([], .error (.badConfigFile (missingKeys c))) := by
  have hcc : check_config c = .error (.badConfigFile (missingKeys c)) := by
    rw [check_config_eq c hp]
    cases hmk : missingKeys c with
    | nil => exact absurd hmk hm
    | cons a l => simp
  refine ⟨hcc, ?_⟩
  intro e he
  simp [bake, he, hcc]

/-- C2 witness: the amended theorem applied to the configuration that
has a provider key but no `name` key. -/
theorem C2_witness :
    check_config cfgMissingName = .error (.badConfigFile [CfgKey.name]) ∧
    bake envMissingName = ([], .error (.badConfigFile [CfgKey.name])) :=
  ⟨(C2_invalid_config_rejected cfgMissingName (by decide) (by decide)).1,
   (C2_invalid_config_rejected cfgMissingName (by decide) (by decide)).2
     envMissingName rfl⟩

/-- C3 counterexample: in the run where the keypair is created and
security-group creation then fails, `bake` surfaces the error with the
backend keypair and the on-disk key file still in place — no cleanup
effect (`keyDelete`, `removeKeyFile`) ever executes, because `__exit__`
is not called when `__enter__` raises. -/
theorem C3_counterexample :
    bake envGrpFail =
      ([Effect.createKeyPair, .writeKeyFile],
       .error (.apiError .create_security_group)) ∧
    Effect.keyDelete ∉ (bake envGrpFail).1 ∧
    Effect.removeKeyFile ∉ (bake envGrpFail).1 ∧
    Effect.createInstances ∉ (bake envGrpFail).1 := by
  decide

/-- C3 amended: when keypair creation succeeds and security-group
creation fails, the build does not proceed to launch and the error
surfaces, but neither the backend keypair record nor the on-disk key
file is cleaned up — both are leaked, since `__exit__` never runs when
`__enter__` raises. -/
theorem C3_partial_acquire_leaks (e : BakeEnv) (hck : check_config e.cfg = .ok ())
    (hnm : e.nameTaken = false) (hkey : e.keyCreateFails = false)
    (hgrp : e.groupCreateFails = true) :
    bake e = ([Effect.createKeyPair, .writeKeyFile],
              .error (.apiError .create_security_group)) ∧
    Effect.createInstances ∉ (bake e).1 ∧
    Effect.keyDelete ∉ (bake e).1 ∧
    Effect.removeKeyFile ∉ (bake e).1 := by
  have hb : bake e = ([Effect.createKeyPair, .writeKeyFile],
      .error (.apiError .create_security_group)) := by
    simp [bake, hck, hnm, withBuilder, builderEnter, make_new_key, make_new_group,
          hkey, hgrp, seqSteps]
  refine ⟨hb, ?_, ?_, ?_⟩ <;> rw [hb] <;> decide

/-- C3 witness: the amended theorem applied to the healthy run whose
security-group creation fails. -/
theorem C3_witness :
    bake envGrpFail =
      ([Effect.createKeyPair, .writeKeyFile],
       .error (.apiError .create_security_group)) ∧
    Effect.keyDelete ∉ (bake envGrpFail).1 :=
  ⟨(C3_partial_acquire_leaks envGrpFail (by decide) rfl rfl rfl).1,
   (C3_partial_acquire_leaks envGrpFail (by decide) rfl rfl rfl).2.2.1⟩

/-- C4: the `wait_for_ssh` retry loop.  Given `N < 15` transient
failures followed by a success, it returns after exactly `N + 1`
connection attempts, each consecutive pair separated by a single fixed
`sleep 4`; given 15 transient failures it raises the
unreachable-timeout error (`ValueError` after exhausting the attempt
budget) and the surrounding `bake` run still performs full teardown. -/
theorem C4_wait_for_ssh_retries :
    (∀ (outs : Nat → ConnOutcome) (N : Nat), N < 15 →
       (∀ j, j < N → isTransient (outs j) = true) → outs N = .ok →
       wait_for_ssh outs =
         (Effect.waitStatus 16 :: (patRepeat N ++ [Effect.sshAttempt]), .ok ()) ∧
       (wait_for_ssh outs).1.count Effect.sshAttempt = N + 1) ∧
    (∀ e : BakeEnv, check_config e.cfg = .ok () → e.nameTaken = false →
       e.keyCreateFails = false → e.groupCreateFails = false →
       e.launchFails = false →
       (∀ j, j < 15 → isTransient (e.sshOuts j) = true) →
       e.exitEnv = cleanExit →
       (wait_for_ssh e.sshOuts).2 = .error .sshValueError ∧
       bake e =
         ([Effect.createKeyPair, .writeKeyFile, .createSecGroup, .authorizeIngress,
           .createInstances, .waitUntilRunning, .waitStatus 16] ++ patRepeat 15 ++
          [.keyDelete, .terminate, .waitStatus 48, .secGrpDelete, .removeKeyFile],
          .error .sshValueError)) := by
  constructor
  · intro outs N hN ht hok
    have hw := wait_for_ssh_succeeds outs N hN ht hok
    refine ⟨hw, ?_⟩
    rw [hw]
    simp [List.count_cons, List.count_append, patRepeat_count]
  · intro e hck hnm hkey hgrp hlaunch ht hexit
    have hw := wait_for_ssh_allTrans e.sshOuts ht
    refine ⟨by rw [hw], ?_⟩
    simp [bake, hck, hnm, withBuilder, builderEnter, make_new_key, make_new_group,
          hkey, hgrp, seqSteps, bakeBody, launch, hlaunch, hw, hexit,
          awsExit_cleanExit]

/-- C4 witness: one transient failure then success gives two attempts
separated by one 4-second sleep; the all-transient run raises the
timeout error and `bake` still runs every teardown sub-step. -/
theorem C4_witness :
    wait_for_ssh outsAuth =
      (Effect.waitStatus 16 :: (patRepeat 1 ++ [Effect.sshAttempt]), .ok ()) ∧
    (wait_for_ssh outsAuth).1.count Effect.sshAttempt = 2 ∧
    (wait_for_ssh envSshFail.sshOuts).2 = .error .sshValueError ∧
    bake envSshFail =
      ([Effect.createKeyPair, .writeKeyFile, .createSecGroup, .authorizeIngress,
        .createInstances, .waitUntilRunning, .waitStatus 16] ++ patRepeat 15 ++
       [.keyDelete, .terminate, .waitStatus 48, .secGrpDelete, .removeKeyFile],
       .error .sshValueError) :=
  ⟨(C4_wait_for_ssh_retries.1 outsAuth 1 (by decide)
      (by intro j hj; interval_cases j; rfl) rfl).1,
   (C4_wait_for_ssh_retries.1 outsAuth 1 (by decide)
      (by intro j hj; interval_cases j; rfl) rfl).2,
   (C4_wait_for_ssh_retries.2 envSshFail (by decide) rfl rfl rfl rfl
      (by intro j hj; rfl) rfl).1,
   (C4_wait_for_ssh_retries.2 envSshFail (by decide) rfl rfl rfl rfl
      (by intro j hj; rfl) rfl).2⟩

/-- C5 counterexample: the first connection attempt fails with
`AuthenticationException` — the credential rejected outright — yet
`wait_for_ssh` does not raise immediately: it sleeps 4 seconds and makes
a second attempt, which succeeds. -/
theorem C5_counterexample :
    wait_for_ssh outsAuth =
      ([Effect.waitStatus 16, .sshAttempt, .sleep 4, .sshAttempt], .ok ()) ∧
    (wait_for_ssh outsAuth).1.count Effect.sshAttempt = 2 ∧
    Effect.sleep 4 ∈ (wait_for_ssh outsAuth).1 ∧
    exOk (wait_for_ssh outsAuth).2 = true := by
  decide

/-- C5 amended: only `PasswordRequiredException` is fatal and
non-retryable — raised on its first occurrence with no further attempts
and no delay after it; an `AuthenticationException` (credential rejected
outright) is caught by the transient clause and retried with the
4-second delay like any connection error. -/
theorem C5_only_password_fatal :
    (∀ (outs : Nat → ConnOutcome) (N : Nat), N < 15 →
       (∀ j, j < N → isTransient (outs j) = true) → outs N = .passwordRequired →
       wait_for_ssh outs =
         (Effect.waitStatus 16 :: (patRepeat N ++ [Effect.sshAttempt]),
          .error .passwordRequired)) ∧
    (∀ (outs : Nat → ConnOutcome) (N : Nat), N < 15 →
       (∀ j, j < N → outs j = .authFail) → outs N = .ok →
       wait_for_ssh outs =
         (Effect.waitStatus 16 :: (patRepeat N ++ [Effect.sshAttempt]), .ok ())) := by
  constructor
  · intro outs N hN ht hpw
    exact wait_for_ssh_passwordRequired outs N hN ht hpw
  · intro outs N hN ht hok
    exact wait_for_ssh_succeeds outs N hN
      (by intro j hj; rw [ht j hj]; rfl) hok

/-- C5 witness: the amended theorem applied to a first-attempt
`PasswordRequiredException` (raised at once, one attempt, no sleep) and
to a first-attempt `AuthenticationException` (retried and then
succeeding on the second attempt). -/
theorem C5_witness :
    wait_for_ssh outsPw =
      (Effect.waitStatus 16 :: (patRepeat 0 ++ [Effect.sshAttempt]),
       .error .passwordRequired) ∧
    wait_for_ssh outsAuth =
      (Effect.waitStatus 16 :: (patRepeat 1 ++ [Effect.sshAttempt]), .ok ()) :=
  ⟨C5_only_password_fatal.1 outsPw 0 (by decide) (by intro j hj; omega) rfl,
   C5_only_password_fatal.2 outsAuth 1 (by decide)
     (by intro j hj; interval_cases j; rfl) rfl⟩

/-- C6: `configure` executes every command of the spec sequentially in
list order and never aborts — the trace records each command with its
exit code and the phase always returns normally; in a full `bake` run
whose three commands exit `[0, 1, 0]`, all three execute in order and
the build then proceeds to the image phase (`createImage` follows). -/
theorem C6_configure_best_effort :
    (∀ (cmds : List String) (retOf : Nat → Int),
       (configure cmds retOf).2 = .ok () ∧
       (configure cmds retOf).1.length = cmds.length ∧
       ∀ i c, cmds[i]? = some c →
         (configure cmds retOf).1[i]? = some (Effect.execCmd c (retOf i))) ∧
    (∀ (e : BakeEnv) (c1 c2 c3 : String), check_config e.cfg = .ok () →
       e.nameTaken = false → e.keyCreateFails = false →
       e.groupCreateFails = false → e.launchFails = false →
       e.sshOuts 0 = .ok → e.cfg.commands = [c1, c2, c3] →
       e.cfg.uploads = [] → e.cfg.tags = none →
       e.cmdRet 0 = 0 → e.cmdRet 1 = 1 → e.cmdRet 2 = 0 →
       e.exitEnv = cleanExit →
       bake e =
         ([Effect.createKeyPair, .writeKeyFile, .createSecGroup, .authorizeIngress,
           .createInstances, .waitUntilRunning, .waitStatus 16, .sshAttempt,
           .execCmd c1 0, .execCmd c2 1, .execCmd c3 0,
           .createImage e.cfg.name,
           .createTags [("Description", e.cfg.description), ("Name", e.cfg.name)],
           .keyDelete, .terminate, .waitStatus 48, .secGrpDelete, .removeKeyFile],
          .ok ())) := by
  constructor
  · intro cmds retOf
    refine ⟨rfl, configureGo_length retOf cmds 0, ?_⟩
    intro i c h
    have := configureGo_getElem retOf cmds 0 i c h
    simpa [configure] using this
  · intro e c1 c2 c3 hck hnm hkey hgrp hlaunch hssh hcmds hup htags h0 h1 h2 hexit
    have hw := wait_for_ssh_succeeds e.sshOuts 0 (by omega) (by intro j hj; omega) hssh
    simp [bake, hck, hnm, withBuilder, builderEnter, make_new_key, make_new_group,
          hkey, hgrp, seqSteps, bakeBody, launch, hlaunch, hw, hexit,
          awsExit_cleanExit, copy_files, hup, configure, hcmds, configureGo,
          h0, h1, h2, create_image, imageTags, htags, patRepeat]

/-- C6 witness: the general part applied to a two-command list, and the
bake part applied to the healthy run whose commands `["a","b","c"]`
exit `[0,1,0]` — all three run in order and the image phase follows. -/
theorem C6_witness :
    (configure ["a", "b"] (fun i => Int.ofNat i)).2 = .ok () ∧
    (configure ["a", "b"] (fun i => Int.ofNat i)).1[1]? =
      some (Effect.execCmd "b" 1) ∧
    bake envOk =
      ([Effect.createKeyPair, .writeKeyFile, .createSecGroup, .authorizeIngress,
        .createInstances, .waitUntilRunning, .waitStatus 16, .sshAttempt,
        .execCmd "a" 0, .execCmd "b" 1, .execCmd "c" 0,
        .createImage "img", .createTags [("Description", "d"), ("Name", "img")],
        .keyDelete, .terminate, .waitStatus 48, .secGrpDelete, .removeKeyFile],
       .ok ()) :=
  ⟨(C6_configure_best_effort.1 ["a", "b"] (fun i => Int.ofNat i)).1,
   (C6_configure_best_effort.1 ["a", "b"] (fun i => Int.ofNat i)).2.2 1 "b" rfl,
   C6_configure_best_effort.2 envOk "a" "b" "c" (by decide) rfl rfl rfl rfl rfl
     rfl rfl rfl rfl rfl rfl rfl⟩

/-- C7: with user tags `[{"owner": "x"}]`, the tag list that
`create_image` passes to `create_tags` is the user tags merged with the
Description and Name tags derived from the spec — it contains
`(owner, x)`, `(Description, spec.description)` and `(Name, spec.name)`. -/
theorem C7_tag_merge (c : Config) (h : c.tags = some [[("owner", "x")]]) :
    imageTags c =
      .ok [("owner", "x"), ("Description", c.description), ("Name", c.name)] ∧
    create_image c =
      ([Effect.createImage c.name,
        Effect.createTags
          [("owner", "x"), ("Description", c.description), ("Name", c.name)]],
       .ok ()) ∧
    ("owner", "x") ∈
      [("owner", "x"), ("Description", c.description), ("Name", c.name)] ∧
    ("Description", c.description) ∈
      [("owner", "x"), ("Description", c.description), ("Name", c.name)] ∧
    ("Name", c.name) ∈
      [("owner", "x"), ("Description", c.description), ("Name", c.name)] := by
  have ht : imageTags c =
      .ok [("owner", "x"), ("Description", c.description), ("Name", c.name)] := by
    simp [imageTags, h, renderUserTags]
  refine ⟨ht, ?_, by simp, by simp, by simp⟩
  simp [create_image, ht]

/-- C7 witness: the theorem applied to the concrete configuration whose
tag list is `[{"owner": "x"}]`. -/
theorem C7_witness :
    create_image cfgOwnerTag =
      ([Effect.createImage "img",
        Effect.createTags [("owner", "x"), ("Description", "d"), ("Name", "img")]],
       .ok ()) :=
  (C7_tag_merge cfgOwnerTag rfl).2.1

/-- C8 counterexample: a command that writes to stdout and stderr and
exits 0 — `execute` streams both chunks but returns the dict
with the single key `retval` only: the result has one entry, and neither a
captured-stdout nor a captured-stderr entry exists. -/
theorem C8_counterexample :
    execute roundsHello 0 =
      some ([StreamEv.stdoutWrite "hello\n", StreamEv.stderrWrite "oops\n"],
            [("retval", 0)]) ∧
    (execute roundsHello 0).map (fun p => p.2.length) = some 1 ∧
    (execute roundsHello 0).map (fun p => p.2.lookup "out") = some none ∧
    (execute roundsHello 0).map (fun p => p.2.lookup "err") = some none := by
  decide

/-- C8 amended: `execute` streams every stdout and stderr chunk, in
order, as it arrives, and returns a result dict containing only the
exit code under the key `retval` — the streamed output is not captured
in the result. -/
theorem C8_execute_streams_only_retval (rounds : List Round) (retcode : Int)
    (evs : List StreamEv) (h : executeLoop rounds = some evs) :
    execute rounds retcode = some (evs, [("retval", retcode)]) ∧
    stdoutOf evs = (roundsUsed rounds).flatMap (fun r => r.out) ∧
    stderrOf evs = (roundsUsed rounds).flatMap (fun r => r.err) := by
  refine ⟨by simp [execute, h], (executeLoop_streams rounds evs h).1,
          (executeLoop_streams rounds evs h).2⟩

/-- C8 witness: the amended theorem applied to the one-round session
that prints `hello` to stdout and `oops` to stderr. -/
theorem C8_witness :
    execute roundsHello 0 =
      some ([StreamEv.stdoutWrite "hello\n", StreamEv.stderrWrite "oops\n"],
            [("retval", 0)]) ∧
    stdoutOf [StreamEv.stdoutWrite "hello\n", StreamEv.stderrWrite "oops\n"] =
      (roundsUsed roundsHello).flatMap (fun r => r.out) :=
  ⟨(C8_execute_streams_only_retval roundsHello 0
      [StreamEv.stdoutWrite "hello\n", StreamEv.stderrWrite "oops\n"] rfl).1,
   (C8_execute_streams_only_retval roundsHello 0
      [StreamEv.stdoutWrite "hello\n", StreamEv.stderrWrite "oops\n"] rfl).2.1⟩

/-- C9: `check_config` reads the provider entry unconditionally, so
every configuration without a `provider` key — whatever else it
contains — raises KeyError, not `BadConfigFile` and not a normal
return. -/
theorem C9_missing_provider_keyerror (c : Config)
    (h : CfgKey.provider ∉ c.keys) :
    check_config c = .error .keyErrorProvider := by
  simp [check_config, h]

/-- C9 witness: the theorem applied to the configuration holding every
required key but no `provider` key. -/
theorem C9_witness :
    check_config cfgAllButProvider = .error .keyErrorProvider :=
  C9_missing_provider_keyerror cfgAllButProvider (by decide)

/-- C10: in AWS teardown with no captured instance and no instance
matching the key name, the `[-1]` indexing in `_locate_renegade_instance` raises
IndexError inside `__exit__` right after the key deletion, so the
security-group deletion and the key-file removal never execute. -/
theorem C10_renegade_indexerror (e : ExitEnv) (hinst : e.hasInstance = false)
    (hren : e.renegadeEmpty = true) (hkey : e.keyDeleteFails = false) :
    awsExit e = ([Effect.keyDelete], .error .indexError) ∧
    Effect.secGrpDelete ∉ (awsExit e).1 ∧
    Effect.removeKeyFile ∉ (awsExit e).1 := by
  obtain ⟨a, b, c, d, f, g, k⟩ := e
  revert a b c d f g k
  decide

/-- C10 witness: the theorem applied to the teardown environment of a
run that failed before launch. -/
theorem C10_witness :
    awsExit exitEnvRenegade = ([Effect.keyDelete], .error .indexError) ∧
    Effect.secGrpDelete ∉ (awsExit exitEnvRenegade).1 ∧
    Effect.removeKeyFile ∉ (awsExit exitEnvRenegade).1 :=
  C10_renegade_indexerror exitEnvRenegade rfl rfl rfl
